import Mathlib

/-! Formal model of parse_metrics.py.

The program parses a flat key-value performance-counter dump, derives rate
metrics, renders a fixed-width table, and appends one row to a CSV file.
Python values flowing through the program are either integers or raw
strings; we model this dynamic typing explicitly with the `Value` type, and
model runtime failures (TypeError, ZeroDivisionError) with `Except String`.
Python's real-valued division `/` is modelled as exact division on `ℚ`.
String primitives (strip, splitlines, int()) are modelled over ASCII text:
strip removes the ten ASCII whitespace characters (space, TAB, LF, CR, VT,
FF, FS, GS, RS, US), splitlines splits on the ASCII line boundaries of
str.splitlines (LF, CR, CRLF, VT, FF, FS, GS, RS), and int() accepts an
optional sign followed by digits with single underscores allowed between
digits. -/

inductive Value where
| int (n : ℤ)
| str (s : String)
deriving DecidableEq

/-- A Python dict with string keys, as an association list with unique keys:
insertion replaces in place, lookup takes the first match. -/
abbrev Record := List (String × Value)

def dictFind : Record → String → Option Value
| [], _ => none
| (k, v) :: rest, key => if k = key then some v else dictFind rest key

def dictInsert : Record → String → Value → Record
| [], k, v => [(k, v)]
| (k0, v0) :: rest, k, v =>
  if k0 = k then (k, v) :: rest else (k0, v0) :: dictInsert rest k v

/-- `d.get(k, dflt)`. -/
def getD (d : Record) (k : String) (dflt : Value) : Value :=
(dictFind d k).getD dflt

/-- The ASCII whitespace characters stripped by `str.strip()`: space, TAB,
LF, CR, VT, FF and the separators FS, GS, RS, US. -/
def isPySpace (c : Char) : Bool :=
c = ' ' || c = '\t' || c = '\n' || c = '\r' || c = '\x0b' || c = '\x0c' ||
  c = '\x1c' || c = '\x1d' || c = '\x1e' || c = '\x1f'

def pyStripCore (cs : List Char) : List Char :=
((cs.dropWhile isPySpace).reverse.dropWhile isPySpace).reverse

/-- `line.strip()`. -/
def pyStrip (s : String) : String := ⟨pyStripCore s.data⟩

/-- The ASCII line boundaries of `str.splitlines()`: LF, CR, VT, FF and the
separators FS, GS, RS (CRLF is the only two-character boundary). -/
def isLineBreak (c : Char) : Bool :=
c = '\n' || c = '\r' || c = '\x0b' || c = '\x0c' ||
  c = '\x1c' || c = '\x1d' || c = '\x1e'

/-- `text.splitlines()`: split at every line boundary, CRLF counting as one;
no trailing empty line for a text ending in a boundary, and the empty text
has no lines. -/
def splitLinesCore : List Char → List (List Char)
| [] => []
| '\r' :: '\n' :: rest => [] :: splitLinesCore rest
| c :: rest =>
  if isLineBreak c then [] :: splitLinesCore rest
  else match splitLinesCore rest with
    | [] => [[c]]
    | l :: ls => (c :: l) :: ls

def pySplitlines (s : String) : List String :=
(splitLinesCore s.data).map fun cs => ⟨cs⟩

/-- `line.split("=", 1)`: the part before the first `=` and the part after. -/
def splitFirstEq : List Char → List Char × List Char
| [] => ([], [])
| c :: rest =>
  if c = '=' then ([], rest)
  else
    let p := splitFirstEq rest
    (c :: p.1, p.2)

def digitVal (c : Char) : Option ℕ :=
if c.isDigit then some (c.toNat - 48) else none

/-- Digits continuing a literal; a single `_` is allowed between digits. -/
def parseDigitsAux : List Char → ℕ → Option ℕ
| [], acc => some acc
| '_' :: rest, acc =>
  match rest with
  | [] => none
  | c :: rest2 =>
    match digitVal c with
    | some dg => parseDigitsAux rest2 (acc * 10 + dg)
    | none => none
| c :: rest, acc =>
  match digitVal c with
  | some dg => parseDigitsAux rest (acc * 10 + dg)
  | none => none

def parseNatCore : List Char → Option ℕ
| [] => none
| c :: rest =>
  match digitVal c with
  | some dg => parseDigitsAux rest dg
  | none => none

/-- Python `int(s)` on a string: strip, optional sign, digits. Returns
`none` where Python raises ValueError. -/
def pyParseInt (s : String) : Option ℤ :=
match pyStripCore s.data with
| '+' :: rest => (parseNatCore rest).map fun n => (n : ℤ)
| '-' :: rest => (parseNatCore rest).map fun n => -(n : ℤ)
| rest => (parseNatCore rest).map fun n => (n : ℤ)

/-- The body of the loop in `parse_kv_lines`: `none` when the line is
skipped (blank, comment, or without `=`), otherwise the key-value pair
stored, the value as an integer when integer-parseable and as the trimmed
string otherwise. -/
def lineEntry (line : String) : Option (String × Value) :=
let l := pyStrip line
if l.isEmpty then none
else if l.data.head? = some '#' then none
else if l.data.contains '=' then
  let p := splitFirstEq l.data
  let key : String := ⟨pyStripCore p.1⟩
  let v : String := ⟨pyStripCore p.2⟩
  match pyParseInt v with
  | some n => some (key, Value.int n)
  | none => some (key, Value.str v)
else none

def parseStep (d : Record) (l : String) : Record :=
match lineEntry l with
| none => d
| some kv => dictInsert d kv.1 kv.2

def parseLines (ls : List String) : Record := ls.foldl parseStep []

/-- `parse_kv_lines(text)`. -/
def parse_kv_lines (text : String) : Record :=
parseLines (pySplitlines text)

/-- Python truthiness of the values that can appear in a record. -/
def pyTruthy : Value → Bool
| Value.int n => decide (n ≠ 0)
| Value.str s => !s.isEmpty

def pyTypeError : String := "TypeError"

def pyZeroDivError : String := "ZeroDivisionError"

/-- Python `+` on dynamic values: int addition, string concatenation,
TypeError on a mix. -/
def pyAdd : Value → Value → Except String Value
| Value.int a, Value.int b => Except.ok (Value.int (a + b))
| Value.str a, Value.str b => Except.ok (Value.str (a ++ b))
| _, _ => Except.error pyTypeError

/-- Python `/` on dynamic values: true division of integers (exact, on ℚ),
TypeError when a string is involved. -/
def pyDiv : Value → Value → Except String ℚ
| Value.int a, Value.int b =>
  if b = 0 then Except.error pyZeroDivError else Except.ok ((a : ℚ) / (b : ℚ))
| _, _ => Except.error pyTypeError

/-- `safe_div(n, d)`: `n / d` when `d` is truthy, else None. -/
def safe_div (n d : Value) : Except String (Option ℚ) :=
if pyTruthy d then (pyDiv n d).map some else Except.ok none

/-- The values main computes before printing: the raw counters as fetched
from the record, and the four derived rates. -/
structure Computed where
  total_reads : Value
  read_hits : Value
  read_misses : Value
  total_writes : Value
  write_hits : Value
  write_misses : Value
  coherency_invalidates : Value
  cycles : Value
  cycles_bus_busy : Option Value
  cache_hit_rate : Option ℚ
  cache_miss_rate : Option ℚ
  coherency_miss_rate : Option ℚ
  bus_utilization : Option ℚ
deriving DecidableEq

/-- Lines 48-65 of main: fetch the nine known fields (default 0, except
`cycles_bus_busy` which defaults to None) and compute the derived rates, in
program order; a dynamic type error aborts the computation. -/
def computeStage (d : Record) : Except String Computed := do
  let total_reads := getD d ("total_reads") (Value.int 0)
  let read_hits := getD d ("read_hits") (Value.int 0)
  let read_misses := getD d ("read_misses") (Value.int 0)
  let total_writes := getD d ("total_writes") (Value.int 0)
  let write_hits := getD d ("write_hits") (Value.int 0)
  let write_misses := getD d ("write_misses") (Value.int 0)
  let coherency_invalidates := getD d ("coherency_invalidates") (Value.int 0)
  let cycles := getD d ("cycles") (Value.int 0)
  let cycles_bus_busy := dictFind d ("cycles_bus_busy")
  let total_accesses ← pyAdd total_reads total_writes
  let total_hits ← pyAdd read_hits write_hits
  let total_misses ← pyAdd read_misses write_misses
  let cache_hit_rate ← safe_div total_hits total_accesses
  let cache_miss_rate ← safe_div total_misses total_accesses
  let coherency_miss_rate ← safe_div coherency_invalidates total_reads
  let bus_utilization ← match cycles_bus_busy with
    | none => Except.ok (none : Option ℚ)
    | some v => safe_div v cycles
  Except.ok (Computed.mk total_reads read_hits read_misses total_writes
    write_hits write_misses coherency_invalidates cycles cycles_bus_busy
    cache_hit_rate cache_miss_rate coherency_miss_rate bus_utilization)

/-- Round to the nearest integer, ties to even. -/
def rhe (x : ℚ) : ℤ :=
let f := Int.floor x
let r := x - f
if r < 1/2 then f else if 1/2 < r then f + 1 else if f % 2 = 0 then f else f + 1

def pad4 (n : ℕ) : String :=
let s := toString n
(⟨List.replicate (4 - s.length) '0'⟩ : String) ++ s

/-- `f"{q:.4f}"`: four decimal places. -/
def fmt4 (q : ℚ) : String :=
let n := (rhe (|q| * 10000)).toNat
(if q < 0 then "-" else "") ++ toString (n / 10000) ++ "." ++ pad4 (n % 10000)

/-- `fmt_rate(x)`. -/
def fmt_rate (x : Option ℚ) : String :=
match x with
| none => "N/A"
| some q => fmt4 q

/-- Python `str()` of a record value, as used by the f-strings. -/
def valueRepr : Value → String
| Value.int n => toString n
| Value.str s => s

/-- Every table label in main is padded with spaces to 28 characters. -/
def pad28 (s : String) : String :=
s ++ (⟨List.replicate (28 - s.length) ' '⟩ : String)

def tableRuler : String := "--------------------------------------"

def tableHeader : String := "Metric                       Value"

/-- Lines 67-83 of main: the printed table, one string per printed line.
The `cycles_bus_busy` row appears only when the field is present. -/
def printTable (c : Computed) : List String :=
[tableHeader, tableRuler,
 pad28 ("total_reads") ++ valueRepr c.total_reads,
 pad28 ("read_hits") ++ valueRepr c.read_hits,
 pad28 ("read_misses") ++ valueRepr c.read_misses,
 pad28 ("total_writes") ++ valueRepr c.total_writes,
 pad28 ("write_hits") ++ valueRepr c.write_hits,
 pad28 ("write_misses") ++ valueRepr c.write_misses,
 pad28 ("coherency_invalidates") ++ valueRepr c.coherency_invalidates,
 pad28 ("cycles") ++ valueRepr c.cycles]
++ (match c.cycles_bus_busy with
    | some v => [pad28 ("cycles_bus_busy") ++ valueRepr v]
    | none => [])
++ [tableRuler,
    pad28 ("cache_hit_rate") ++ fmt_rate c.cache_hit_rate,
    pad28 ("cache_miss_rate") ++ fmt_rate c.cache_miss_rate,
    pad28 ("coherency_miss_rate") ++ fmt_rate c.coherency_miss_rate,
    pad28 ("bus_utilization") ++ fmt_rate c.bus_utilization]

/-- A cell of the CSV row before serialisation: an integer, a string (nulls
become the empty string at row construction), or a rate. -/
inductive Cell where
| int (n : ℤ)
| str (s : String)
| rate (q : ℚ)
deriving DecidableEq

def cellOfValue : Value → Cell
| Value.int n => Cell.int n
| Value.str s => Cell.str s

/-- `cycles_bus_busy if cycles_bus_busy is not None else ""`. -/
def optCell : Option Value → Cell
| some v => cellOfValue v
| none => Cell.str ""

/-- `rate if rate is not None else ""`. -/
def rateCell : Option ℚ → Cell
| some q => Cell.rate q
| none => Cell.str ""

/-- The `fieldnames` list of main, in source order. -/
def csvFieldnames : List String :=
["total_reads", "read_hits", "read_misses",
 "total_writes", "write_hits", "write_misses",
 "coherency_invalidates", "cycles", "cycles_bus_busy",
 "cache_hit_rate", "cache_miss_rate",
 "coherency_miss_rate", "bus_utilization"]

def headerRow : List Cell := csvFieldnames.map Cell.str

/-- The `row` dict of main flattened by DictWriter in `fieldnames` order. -/
def makeRow (c : Computed) : List Cell :=
[cellOfValue c.total_reads, cellOfValue c.read_hits, cellOfValue c.read_misses,
 cellOfValue c.total_writes, cellOfValue c.write_hits, cellOfValue c.write_misses,
 cellOfValue c.coherency_invalidates, cellOfValue c.cycles,
 optCell c.cycles_bus_busy,
 rateCell c.cache_hit_rate, rateCell c.cache_miss_rate,
 rateCell c.coherency_miss_rate, rateCell c.bus_utilization]

/-- Lines 109-114 of main: the CSV file as a list of rows; `none` models a
file that does not exist yet. The header is written only in that case, and
exactly one data row is appended. -/
def csvAppend (file : Option (List (List Cell))) (row : List Cell) : List (List Cell) :=
match file with
| none => [headerRow, row]
| some rows => rows ++ [row]

/-- Modelled from the spec, section 4.1: the processed entry of one line,
following the spec's wording (trim; skip blank, comment and `=`-less lines;
split on the first `=`; trim both sides; integer on success, trimmed string
verbatim on failure). -/
def lineEntry_spec (line : String) : Option (String × Value) :=
let l := pyStrip line
if l.isEmpty ∨ l.data.head? = some '#' ∨ ¬ l.data.contains '=' then none
else
  let p := splitFirstEq l.data
  let key : String := ⟨pyStripCore p.1⟩
  let v : String := ⟨pyStripCore p.2⟩
  some (key, ((pyParseInt v).map Value.int).getD (Value.str v))

/-- The last pair with key `k` in a list of processed pairs. -/
def specLastCore (ps : List (String × Value)) (k : String) : Option Value :=
(ps.reverse.find? fun p => p.1 == k).map fun p => p.2

/-- Modelled from the spec, section 4.1: the value the parsed record gives a
key is the value of the LAST processed line with that key (last-write-wins),
`none` when no processed line has the key. -/
def parseKV_spec (text : String) (k : String) : Option Value :=
specLastCore ((pySplitlines text).filterMap lineEntry_spec) k

/-- The nine metric names main consumes from the record. -/
def knownKeys : List String :=
["total_reads", "read_hits", "read_misses",
 "total_writes", "write_hits", "write_misses",
 "coherency_invalidates", "cycles", "cycles_bus_busy"]

/-- A line is relevant when it is processed into a key-value pair whose key
is one of the nine known metric names. -/
def isRelevant (l : String) : Bool :=
match lineEntry l with
| some kv => knownKeys.contains kv.1
| none => false

def joinCore : List (List Char) → List Char
| [] => []
| [l] => l
| l :: ls => l ++ '\n' :: joinCore ls

/-- Join lines with LF, the inverse of splitlines on newline-free lines. -/
def joinLines (ls : List String) : String := ⟨joinCore (ls.map String.data)⟩

def noNLCore (cs : List Char) : Bool := cs.all fun c => !(isLineBreak c)

/-- A string free of every line-boundary character of splitlines. -/
def noNL (s : String) : Bool := noNLCore s.data

/-- A line the parser ignores: blank after trimming, or a comment. -/
def ignorableLine (l : String) : Bool :=
(pyStrip l).isEmpty || (pyStrip l).data.head? == some '#'

/-- The end-to-end example input of spec section 8, as a parsed record. -/
def exampleRecord : Record :=
[(("total_reads"), Value.int 100), (("read_hits"), Value.int 80),
 (("read_misses"), Value.int 20), (("total_writes"), Value.int 50),
 (("write_hits"), Value.int 45), (("write_misses"), Value.int 5),
 (("coherency_invalidates"), Value.int 10), (("cycles"), Value.int 10000),
 (("cycles_bus_busy"), Value.int 2500)]

/-- The Computed value of a run on an input with no data lines. -/
def emptyComputed : Computed :=
Computed.mk (Value.int 0) (Value.int 0) (Value.int 0) (Value.int 0)
  (Value.int 0) (Value.int 0) (Value.int 0) (Value.int 0)
  none none none none none

theorem slc_cons (c : Char) (rest : List Char) (h : isLineBreak c = false) :
    splitLinesCore (c :: rest) = match splitLinesCore rest with
      | [] => [[c]]
      | l :: ls => (c :: l) :: ls := by
  rw [splitLinesCore]
  · simp [h]
  · intro r hc _
    rw [hc] at h
    exact absurd h (by decide)

theorem slc_break (c : Char) (rest : List Char) (hb : isLineBreak c = true) (hcr : c ≠ '\r') :
    splitLinesCore (c :: rest) = [] :: splitLinesCore rest := by
  rw [splitLinesCore]
  · simp [hb]
  · intro r hc _; exact absurd hc hcr

theorem joinCore_cons2 (l m : List Char) (ls : List (List Char)) :
    joinCore (l :: m :: ls) = l ++ '\n' :: joinCore (m :: ls) := by
  rw [joinCore]
  · simp

theorem slc_noNL (cs : List Char) (h : noNLCore cs = true) :
    splitLinesCore cs = if cs.isEmpty then [] else [cs] := by
  induction cs with
  | nil => rfl
  | cons c rest ih =>
    simp only [noNLCore, List.all_cons, Bool.and_eq_true, Bool.not_eq_true'] at h
    rw [slc_cons c rest h.1, ih h.2]
    cases rest <;> simp

theorem slc_append (cs rest : List Char) (h : noNLCore cs = true) :
    splitLinesCore (cs ++ '\n' :: rest) = cs :: splitLinesCore rest := by
  induction cs with
  | nil =>
    simp only [List.nil_append]
    exact slc_break '\n' rest (by decide) (by decide)
  | cons c cs' ih =>
    simp only [noNLCore, List.all_cons, Bool.and_eq_true, Bool.not_eq_true'] at h
    rw [List.cons_append, slc_cons c _ h.1, ih h.2]

theorem lineEntry_spec_eq (l : String) : lineEntry_spec l = lineEntry l := by
  unfold lineEntry lineEntry_spec
  by_cases h1 : (pyStrip l).isEmpty
  · simp [h1]
  · by_cases h2 : (pyStrip l).data.head? = some '#'
    · simp [h1, h2]
    · by_cases h3 : '=' ∈ (pyStrip l).data
      · cases hp : pyParseInt (⟨pyStripCore (splitFirstEq (pyStrip l).data).2⟩ : String) <;>
          simp [h1, h2, h3, hp]
      · simp [h1, h2, h3]

theorem find?_app {α : Type} (p : α → Bool) (xs ys : List α) :
    (xs ++ ys).find? p = match xs.find? p with
      | some a => some a
      | none => ys.find? p := by
  induction xs with
  | nil => simp [List.find?]
  | cons x xs ih =>
    simp only [List.cons_append, List.find?]
    cases hp : p x <;> simp [hp, ih]

theorem specLastCore_cons (p : String × Value) (ps : List (String × Value)) (k : String) :
    specLastCore (p :: ps) k = match specLastCore ps k with
      | some v => some v
      | none => if p.1 = k then some p.2 else none := by
  unfold specLastCore
  rw [List.reverse_cons, find?_app]
  cases h : (ps.reverse.find? fun q => q.1 == k) with
  | some q => simp [h]
  | none =>
    cases hb : p.1 == k with
    | true =>
      have hbe : p.1 = k := by simpa using hb
      simp [h, hb, List.find?, hbe]
    | false =>
      have hbe : ¬ p.1 = k := by simpa using hb
      simp [h, hb, List.find?, hbe]

theorem dictFind_insert (d : Record) (k0 : String) (v : Value) (k : String) :
    dictFind (dictInsert d k0 v) k = if k0 = k then some v else dictFind d k := by
  induction d with
  | nil => simp [dictInsert, dictFind]
  | cons p rest ih =>
    obtain ⟨a, b⟩ := p
    simp only [dictInsert]
    by_cases h : a = k0
    · subst h
      simp only [if_pos rfl, dictFind]
      by_cases hk : a = k <;> simp [dictFind, hk]
    · simp only [if_neg h, dictFind, ih]
      split_ifs <;> simp_all

theorem dictFind_foldl (ls : List String) (acc : Record) (k : String) :
    dictFind (ls.foldl parseStep acc) k =
      match specLastCore (ls.filterMap lineEntry) k with
      | some v => some v
      | none => dictFind acc k := by
  induction ls generalizing acc with
  | nil => simp [specLastCore]
  | cons l ls ih =>
    simp only [List.foldl_cons, List.filterMap_cons]
    cases he : lineEntry l with
    | none => simp only [parseStep, he]; exact ih acc
    | some kv =>
      simp only [parseStep, he]
      rw [ih (dictInsert acc kv.1 kv.2), specLastCore_cons, dictFind_insert]
      cases hs : specLastCore (ls.filterMap lineEntry) k <;>
        by_cases hk : kv.1 = k <;> simp [hs, hk]

theorem dictFind_parse (t k : String) :
    dictFind (parse_kv_lines t) k = parseKV_spec t k := by
  unfold parse_kv_lines parseLines parseKV_spec
  rw [dictFind_foldl]
  have he : lineEntry_spec = lineEntry := funext lineEntry_spec_eq
  rw [he]
  cases h : specLastCore ((pySplitlines t).filterMap lineEntry) k <;> simp [h, dictFind]

theorem pyAdd_int (a b : ℤ) :
    pyAdd (Value.int a) (Value.int b) = Except.ok (Value.int (a + b)) := rfl

theorem safe_div_int (a b : ℤ) :
    safe_div (Value.int a) (Value.int b) =
      Except.ok (if b = 0 then none else some ((a : ℚ) / (b : ℚ))) := by
  by_cases h : b = 0
  · simp [safe_div, pyTruthy, h]
  · simp [safe_div, pyTruthy, h, pyDiv, Except.map]

theorem ebind_ok {α β : Type} (a : α) (f : α → Except String β) :
    (Except.ok a >>= f) = f a := rfl

theorem ebind_err {α β : Type} (e : String) (f : α → Except String β) :
    (Except.error e >>= f) = (Except.error e : Except String β) := rfl

theorem computeStage_int (d : Record) (tr rh rm tw wh wm ci cy : ℤ) (ocbb : Option ℤ)
    (h1 : getD d ("total_reads") (Value.int 0) = Value.int tr)
    (h2 : getD d ("read_hits") (Value.int 0) = Value.int rh)
    (h3 : getD d ("read_misses") (Value.int 0) = Value.int rm)
    (h4 : getD d ("total_writes") (Value.int 0) = Value.int tw)
    (h5 : getD d ("write_hits") (Value.int 0) = Value.int wh)
    (h6 : getD d ("write_misses") (Value.int 0) = Value.int wm)
    (h7 : getD d ("coherency_invalidates") (Value.int 0) = Value.int ci)
    (h8 : getD d ("cycles") (Value.int 0) = Value.int cy)
    (h9 : dictFind d ("cycles_bus_busy") = ocbb.map Value.int) :
    computeStage d = Except.ok (Computed.mk
      (Value.int tr) (Value.int rh) (Value.int rm) (Value.int tw)
      (Value.int wh) (Value.int wm) (Value.int ci) (Value.int cy)
      (ocbb.map Value.int)
      (if tr + tw = 0 then none else some (((rh + wh : ℤ) : ℚ) / ((tr + tw : ℤ) : ℚ)))
      (if tr + tw = 0 then none else some (((rm + wm : ℤ) : ℚ) / ((tr + tw : ℤ) : ℚ)))
      (if tr = 0 then none else some ((ci : ℚ) / (tr : ℚ)))
      (match ocbb with
       | none => none
       | some b => if cy = 0 then none else some ((b : ℚ) / (cy : ℚ)))) := by
  cases ocbb with
  | none =>
    simp only [Option.map_none'] at h9
    simp only [computeStage, h1, h2, h3, h4, h5, h6, h7, h8, h9,
      pyAdd_int, safe_div_int, ebind_ok]
    rfl
  | some b =>
    simp only [Option.map_some'] at h9
    simp only [computeStage, h1, h2, h3, h4, h5, h6, h7, h8, h9,
      pyAdd_int, safe_div_int, ebind_ok]
    rfl

theorem computeStage_ok_cbb (d : Record) (c : Computed)
    (habs : dictFind d ("cycles_bus_busy") = none)
    (h : computeStage d = Except.ok c) :
    c.cycles_bus_busy = none ∧ c.bus_utilization = none := by
  simp only [computeStage, habs] at h
  rcases hA : pyAdd (getD d ("total_reads") (Value.int 0)) (getD d ("total_writes") (Value.int 0)) with eA | ta
  · simp only [hA, ebind_err] at h; exact Except.noConfusion h
  simp only [hA, ebind_ok] at h
  rcases hB : pyAdd (getD d ("read_hits") (Value.int 0)) (getD d ("write_hits") (Value.int 0)) with eB | th
  · simp only [hB, ebind_err] at h; exact Except.noConfusion h
  simp only [hB, ebind_ok] at h
  rcases hC : pyAdd (getD d ("read_misses") (Value.int 0)) (getD d ("write_misses") (Value.int 0)) with eC | tm
  · simp only [hC, ebind_err] at h; exact Except.noConfusion h
  simp only [hC, ebind_ok] at h
  rcases hD : safe_div th ta with eD | chr
  · simp only [hD, ebind_err] at h; exact Except.noConfusion h
  simp only [hD, ebind_ok] at h
  rcases hE : safe_div tm ta with eE | cmr
  · simp only [hE, ebind_err] at h; exact Except.noConfusion h
  simp only [hE, ebind_ok] at h
  rcases hF : safe_div (getD d ("coherency_invalidates") (Value.int 0)) (getD d ("total_reads") (Value.int 0)) with eF | cohr
  · simp only [hF, ebind_err] at h; exact Except.noConfusion h
  simp only [hF, ebind_ok] at h
  injection h with h2
  rw [← h2]
  exact ⟨rfl, rfl⟩

theorem parse_join (ls : List String) (h : ∀ s ∈ ls, noNL s = true) (acc : Record) :
    (pySplitlines (joinLines ls)).foldl parseStep acc = ls.foldl parseStep acc := by
  induction ls generalizing acc with
  | nil => rfl
  | cons l ls ih =>
    cases ls with
    | nil =>
      have hl : noNLCore l.data = true := h l (by simp)
      show ((splitLinesCore (joinCore [l.data])).map fun cs => (⟨cs⟩ : String)).foldl parseStep acc = _
      rw [show joinCore [l.data] = l.data from rfl, slc_noNL l.data hl]
      by_cases he : l.data.isEmpty
      · have hl0 : l = ("") := by
          cases l with
          | mk cs => simp at he; simp [he]
        simp [he, hl0, parseStep, lineEntry, pyStrip, pyStripCore]
      · simp only [he, if_false, Bool.false_eq_true, List.map_cons, List.map_nil,
          List.foldl_cons, List.foldl_nil]
    | cons m rest =>
      have hl : noNLCore l.data = true := h l (by simp)
      simp only [joinLines, pySplitlines, List.map_cons]
      rw [joinCore_cons2, slc_append _ _ hl]
      simp only [List.map_cons, List.foldl_cons]
      exact ih (fun s hs => h s (by simp [hs])) (parseStep acc l)

theorem lineEntry_of_ignorable (l : String) (hig : ignorableLine l = true) :
    lineEntry l = none := by
  unfold ignorableLine at hig
  cases h1 : (pyStrip l).isEmpty with
  | true => simp [lineEntry, h1]
  | false =>
    have h2 : (pyStrip l).data.head? = some '#' := by
      rw [h1] at hig
      simpa using hig
    simp [lineEntry, h1, h2]

theorem known_filter (ls : List String) (k : String) (hk : knownKeys.contains k = true) :
    specLastCore (ls.filterMap lineEntry) k =
      specLastCore ((ls.filter isRelevant).filterMap lineEntry) k := by
  induction ls with
  | nil => rfl
  | cons l ls ih =>
    cases he : lineEntry l with
    | none =>
      have hrel : isRelevant l = false := by simp [isRelevant, he]
      simp only [List.filterMap_cons, he, List.filter_cons, hrel, Bool.false_eq_true, if_false]
      exact ih
    | some kv =>
      by_cases hr : knownKeys.contains kv.1 = true
      · have hrel : isRelevant l = true := by simp only [isRelevant, he]; exact hr
        simp only [List.filterMap_cons, he, List.filter_cons, hrel, if_true]
        rw [specLastCore_cons, specLastCore_cons, ih]
      · have hrel : isRelevant l = false := by
          simp only [isRelevant, he]
          exact (Bool.not_eq_true _) ▸ hr
        have hne : kv.1 ≠ k := by
          intro hq; rw [hq] at hr; exact hr hk
        simp only [List.filterMap_cons, he, List.filter_cons, hrel, Bool.false_eq_true, if_false]
        rw [specLastCore_cons, ih]
        cases hs : specLastCore ((ls.filter isRelevant).filterMap lineEntry) k <;> simp [hs, hne]

theorem parse_known_eq (t1 t2 : String)
    (hf : (pySplitlines t1).filter isRelevant = (pySplitlines t2).filter isRelevant)
    (k : String) (hk : knownKeys.contains k = true) :
    dictFind (parse_kv_lines t1) k = dictFind (parse_kv_lines t2) k := by
  unfold parse_kv_lines parseLines
  rw [dictFind_foldl, dictFind_foldl, known_filter (pySplitlines t1) k hk, hf,
    ← known_filter (pySplitlines t2) k hk]

theorem computeStage_congr (d1 d2 : Record)
    (h : ∀ k, knownKeys.contains k = true → dictFind d1 k = dictFind d2 k) :
    computeStage d1 = computeStage d2 := by
  have e1 := h ("total_reads") (by decide)
  have e2 := h ("read_hits") (by decide)
  have e3 := h ("read_misses") (by decide)
  have e4 := h ("total_writes") (by decide)
  have e5 := h ("write_hits") (by decide)
  have e6 := h ("write_misses") (by decide)
  have e7 := h ("coherency_invalidates") (by decide)
  have e8 := h ("cycles") (by decide)
  have e9 := h ("cycles_bus_busy") (by decide)
  simp only [computeStage, getD, e1, e2, e3, e4, e5, e6, e7, e8, e9]

/-- C1: the claim is false on the code. For the input `total_reads = abc`
the known field `total_reads` is stored as the raw string and the rate
computation raises a TypeError, while for the input with the key absent the
computation succeeds with the field defaulted to 0; the field is therefore
not treated as 0, and a type error is propagated. -/
theorem C1_counterexample :
    computeStage (parse_kv_lines ("total_reads = abc")) = Except.error pyTypeError ∧
    computeStage (parse_kv_lines ("")) = Except.ok (Computed.mk
      (Value.int 0) (Value.int 0) (Value.int 0) (Value.int 0)
      (Value.int 0) (Value.int 0) (Value.int 0) (Value.int 0)
      none none none none none) := ⟨rfl, rfl⟩

/-- C1 (amended): a known numeric field defaults to 0 only when its key is
absent; a present non-integer-parseable value is stored as the raw trimmed
string and flows into the downstream computation, where arithmetic on it
raises a type error: whenever `total_reads` holds a string and
`total_writes` is an integer (or absent, defaulting to 0), the rate
computation aborts with a TypeError instead of treating the field as 0. -/
theorem C1_amended (d : Record) (s : String) (n : ℤ)
    (h1 : getD d ("total_reads") (Value.int 0) = Value.str s)
    (h2 : getD d ("total_writes") (Value.int 0) = Value.int n) :
    computeStage d = Except.error pyTypeError := by
  simp only [computeStage, h1, h2]
  rfl

/-- Witness for C1 (amended) at the record parsed from `total_reads = abc`. -/
theorem C1_amended_witness :
    (getD [(("total_reads"), Value.str ("abc"))] ("total_reads") (Value.int 0) = Value.str ("abc") ∧
     getD [(("total_reads"), Value.str ("abc"))] ("total_writes") (Value.int 0) = Value.int 0) ∧
    computeStage [(("total_reads"), Value.str ("abc"))] = Except.error pyTypeError :=
⟨⟨by decide, by decide⟩,
 C1_amended [(("total_reads"), Value.str ("abc"))] ("abc") 0 (by decide) (by decide)⟩

/-- C2: for a record whose known fields are integers, the computation
succeeds and the derived rates are exact rational divisions guarded by
zero denominators: cache_hit_rate = (read_hits+write_hits)/(total_reads+
total_writes) when the denominator is nonzero and null otherwise, likewise
cache_miss_rate, and coherency_miss_rate = coherency_invalidates/total_reads
when total_reads is nonzero and null otherwise. -/
theorem C2_derived_rates (d : Record) (tr rh rm tw wh wm ci cy : ℤ) (ocbb : Option ℤ)
    (h1 : getD d ("total_reads") (Value.int 0) = Value.int tr)
    (h2 : getD d ("read_hits") (Value.int 0) = Value.int rh)
    (h3 : getD d ("read_misses") (Value.int 0) = Value.int rm)
    (h4 : getD d ("total_writes") (Value.int 0) = Value.int tw)
    (h5 : getD d ("write_hits") (Value.int 0) = Value.int wh)
    (h6 : getD d ("write_misses") (Value.int 0) = Value.int wm)
    (h7 : getD d ("coherency_invalidates") (Value.int 0) = Value.int ci)
    (h8 : getD d ("cycles") (Value.int 0) = Value.int cy)
    (h9 : dictFind d ("cycles_bus_busy") = ocbb.map Value.int) :
    ∃ c, computeStage d = Except.ok c ∧
      c.cache_hit_rate =
        (if tr + tw ≠ 0 then some (((rh : ℚ) + (wh : ℚ)) / ((tr : ℚ) + (tw : ℚ))) else none) ∧
      c.cache_miss_rate =
        (if tr + tw ≠ 0 then some (((rm : ℚ) + (wm : ℚ)) / ((tr : ℚ) + (tw : ℚ))) else none) ∧
      c.coherency_miss_rate =
        (if tr ≠ 0 then some ((ci : ℚ) / (tr : ℚ)) else none) := by
  refine ⟨_, computeStage_int d tr rh rm tw wh wm ci cy ocbb h1 h2 h3 h4 h5 h6 h7 h8 h9, ?_, ?_, ?_⟩
  · by_cases h : tr + tw = 0 <;> simp [h]
  · by_cases h : tr + tw = 0 <;> simp [h]
  · by_cases h : tr = 0 <;> simp [h]

/-- Witness for C2 at the spec's end-to-end example record. -/
theorem C2_derived_rates_witness :
    ((getD exampleRecord ("total_reads") (Value.int 0) = Value.int 100 ∧
      getD exampleRecord ("read_hits") (Value.int 0) = Value.int 80 ∧
      getD exampleRecord ("read_misses") (Value.int 0) = Value.int 20 ∧
      getD exampleRecord ("total_writes") (Value.int 0) = Value.int 50 ∧
      getD exampleRecord ("write_hits") (Value.int 0) = Value.int 45 ∧
      getD exampleRecord ("write_misses") (Value.int 0) = Value.int 5 ∧
      getD exampleRecord ("coherency_invalidates") (Value.int 0) = Value.int 10 ∧
      getD exampleRecord ("cycles") (Value.int 0) = Value.int 10000 ∧
      dictFind exampleRecord ("cycles_bus_busy") = (some (2500 : ℤ)).map Value.int)) ∧
    (∃ c, computeStage exampleRecord = Except.ok c ∧
      c.cache_hit_rate =
        (if (100 : ℤ) + 50 ≠ 0 then some ((((80 : ℤ) : ℚ) + ((45 : ℤ) : ℚ)) / (((100 : ℤ) : ℚ) + ((50 : ℤ) : ℚ))) else none) ∧
      c.cache_miss_rate =
        (if (100 : ℤ) + 50 ≠ 0 then some ((((20 : ℤ) : ℚ) + ((5 : ℤ) : ℚ)) / (((100 : ℤ) : ℚ) + ((50 : ℤ) : ℚ))) else none) ∧
      c.coherency_miss_rate =
        (if (100 : ℤ) ≠ 0 then some (((10 : ℤ) : ℚ) / ((100 : ℤ) : ℚ)) else none)) :=
⟨by decide,
 C2_derived_rates exampleRecord 100 80 20 50 45 5 10 10000 (some 2500)
   (by decide) (by decide) (by decide) (by decide) (by decide) (by decide)
   (by decide) (by decide) (by decide)⟩

/-- C3: for integer-valued records, bus_utilization equals
cycles_bus_busy / cycles exactly when the key is present and cycles is
nonzero and is null otherwise (absent key, or present key with cycles = 0);
concretely, a present cycles_bus_busy with cycles = 0 yields null, and
cycles_bus_busy = 0 with cycles = 1000 yields the rate 0 (not null). -/
theorem C3_bus_utilization (d : Record) (tr rh rm tw wh wm ci cy : ℤ) (ocbb : Option ℤ)
    (h1 : getD d ("total_reads") (Value.int 0) = Value.int tr)
    (h2 : getD d ("read_hits") (Value.int 0) = Value.int rh)
    (h3 : getD d ("read_misses") (Value.int 0) = Value.int rm)
    (h4 : getD d ("total_writes") (Value.int 0) = Value.int tw)
    (h5 : getD d ("write_hits") (Value.int 0) = Value.int wh)
    (h6 : getD d ("write_misses") (Value.int 0) = Value.int wm)
    (h7 : getD d ("coherency_invalidates") (Value.int 0) = Value.int ci)
    (h8 : getD d ("cycles") (Value.int 0) = Value.int cy)
    (h9 : dictFind d ("cycles_bus_busy") = ocbb.map Value.int) :
    (∃ c, computeStage d = Except.ok c ∧
      c.bus_utilization = (match ocbb with
        | none => none
        | some b => if cy ≠ 0 then some ((b : ℚ) / (cy : ℚ)) else none)) ∧
    (∃ c, computeStage (parse_kv_lines ("cycles_bus_busy = 7\ncycles = 0")) = Except.ok c ∧
      c.bus_utilization = none) ∧
    (∃ c, computeStage (parse_kv_lines ("cycles_bus_busy = 0\ncycles = 1000")) = Except.ok c ∧
      c.bus_utilization = some 0) := by
  refine ⟨⟨_, computeStage_int d tr rh rm tw wh wm ci cy ocbb h1 h2 h3 h4 h5 h6 h7 h8 h9, ?_⟩,
    ⟨_, rfl, rfl⟩, ⟨_, rfl, by norm_num; decide⟩⟩
  cases ocbb with
  | none => rfl
  | some b => by_cases h : cy = 0 <;> simp [h]

/-- Witness for C3 at the spec's end-to-end example record. -/
theorem C3_bus_utilization_witness :
    ((getD exampleRecord ("total_reads") (Value.int 0) = Value.int 100 ∧
      getD exampleRecord ("read_hits") (Value.int 0) = Value.int 80 ∧
      getD exampleRecord ("read_misses") (Value.int 0) = Value.int 20 ∧
      getD exampleRecord ("total_writes") (Value.int 0) = Value.int 50 ∧
      getD exampleRecord ("write_hits") (Value.int 0) = Value.int 45 ∧
      getD exampleRecord ("write_misses") (Value.int 0) = Value.int 5 ∧
      getD exampleRecord ("coherency_invalidates") (Value.int 0) = Value.int 10 ∧
      getD exampleRecord ("cycles") (Value.int 0) = Value.int 10000 ∧
      dictFind exampleRecord ("cycles_bus_busy") = (some (2500 : ℤ)).map Value.int)) ∧
    ((∃ c, computeStage exampleRecord = Except.ok c ∧
      c.bus_utilization = (match some (2500 : ℤ) with
        | none => none
        | some b => if (10000 : ℤ) ≠ 0 then some ((b : ℚ) / ((10000 : ℤ) : ℚ)) else none)) ∧
     (∃ c, computeStage (parse_kv_lines ("cycles_bus_busy = 7\ncycles = 0")) = Except.ok c ∧
      c.bus_utilization = none) ∧
     (∃ c, computeStage (parse_kv_lines ("cycles_bus_busy = 0\ncycles = 1000")) = Except.ok c ∧
      c.bus_utilization = some 0)) :=
⟨by decide,
 C3_bus_utilization exampleRecord 100 80 20 50 45 5 10 10000 (some 2500)
   (by decide) (by decide) (by decide) (by decide) (by decide) (by decide)
   (by decide) (by decide) (by decide)⟩

/-- C4: the CSV row has exactly 13 cells in the fixed fieldnames order with
null values rendered as the empty string; the header row (the 13 field
names) is written only when the file did not exist, so two consecutive runs
against a fresh path produce exactly one header row and two data rows. -/
theorem C4_csv_shape :
    (∀ c : Computed, (makeRow c).length = 13) ∧
    (∀ c : Computed, makeRow c =
      [cellOfValue c.total_reads, cellOfValue c.read_hits, cellOfValue c.read_misses,
       cellOfValue c.total_writes, cellOfValue c.write_hits, cellOfValue c.write_misses,
       cellOfValue c.coherency_invalidates, cellOfValue c.cycles,
       optCell c.cycles_bus_busy,
       rateCell c.cache_hit_rate, rateCell c.cache_miss_rate,
       rateCell c.coherency_miss_rate, rateCell c.bus_utilization]) ∧
    rateCell none = Cell.str ("") ∧
    optCell none = Cell.str ("") ∧
    headerRow =
      [Cell.str ("total_reads"), Cell.str ("read_hits"), Cell.str ("read_misses"),
       Cell.str ("total_writes"), Cell.str ("write_hits"), Cell.str ("write_misses"),
       Cell.str ("coherency_invalidates"), Cell.str ("cycles"), Cell.str ("cycles_bus_busy"),
       Cell.str ("cache_hit_rate"), Cell.str ("cache_miss_rate"),
       Cell.str ("coherency_miss_rate"), Cell.str ("bus_utilization")] ∧
    (∀ r : List Cell, csvAppend none r = [headerRow, r]) ∧
    (∀ (rows : List (List Cell)) (r : List Cell), csvAppend (some rows) r = rows ++ [r]) ∧
    (∀ c1 c2 : Computed,
      csvAppend (some (csvAppend none (makeRow c1))) (makeRow c2) =
        [headerRow, makeRow c1, makeRow c2]) :=
⟨fun _ => rfl, fun _ => rfl, rfl, rfl, rfl, fun _ => rfl, fun _ _ => rfl, fun _ _ => rfl⟩

/-- C5: the record parse_kv_lines builds agrees, on every key, with the
spec-modelled parser that trims each line, skips blank, comment and
separator-less lines, splits on the first `=`, trims both sides, stores
integers when integer-parseable and the trimmed string otherwise, and gives
each key the value of the last line with that key (last-write-wins).
Totality of parse_kv_lines makes every malformed line a silent skip, never
an error. -/
theorem C5_parse_agrees_spec (t k : String) :
    dictFind (parse_kv_lines t) k = parseKV_spec t k := dictFind_parse t k

/-- C6: for integer-valued records the rate computation never fails, and a
zero denominator makes the corresponding rate null: total_reads +
total_writes = 0 nullifies both cache rates (in particular for
total_reads = 0 and total_writes = 0), total_reads = 0 nullifies the
coherency miss rate, cycles = 0 nullifies bus utilization; a null rate is
displayed as the literal text N/A and stored in the CSV row as the empty
string. -/
theorem C6_zero_denominators (d : Record) (tr rh rm tw wh wm ci cy : ℤ) (ocbb : Option ℤ)
    (h1 : getD d ("total_reads") (Value.int 0) = Value.int tr)
    (h2 : getD d ("read_hits") (Value.int 0) = Value.int rh)
    (h3 : getD d ("read_misses") (Value.int 0) = Value.int rm)
    (h4 : getD d ("total_writes") (Value.int 0) = Value.int tw)
    (h5 : getD d ("write_hits") (Value.int 0) = Value.int wh)
    (h6 : getD d ("write_misses") (Value.int 0) = Value.int wm)
    (h7 : getD d ("coherency_invalidates") (Value.int 0) = Value.int ci)
    (h8 : getD d ("cycles") (Value.int 0) = Value.int cy)
    (h9 : dictFind d ("cycles_bus_busy") = ocbb.map Value.int) :
    (∃ c, computeStage d = Except.ok c ∧
      (tr + tw = 0 → c.cache_hit_rate = none ∧ c.cache_miss_rate = none) ∧
      (tr = 0 → c.coherency_miss_rate = none) ∧
      (cy = 0 → c.bus_utilization = none)) ∧
    fmt_rate none = ("N/A") ∧
    rateCell none = Cell.str ("") ∧
    (∃ c, computeStage (parse_kv_lines ("total_reads = 0\ntotal_writes = 0")) = Except.ok c ∧
      c.cache_hit_rate = none ∧ c.cache_miss_rate = none) := by
  refine ⟨⟨_, computeStage_int d tr rh rm tw wh wm ci cy ocbb h1 h2 h3 h4 h5 h6 h7 h8 h9,
    ?_, ?_, ?_⟩, rfl, rfl, ⟨_, rfl, rfl, rfl⟩⟩
  · intro h0; exact ⟨by simp [h0], by simp [h0]⟩
  · intro h0; simp [h0]
  · intro h0; cases ocbb with
    | none => rfl
    | some b => simp [h0]

/-- Witness for C6 at the empty record, where every denominator is zero. -/
theorem C6_zero_denominators_witness :
    ((getD (([] : Record)) ("total_reads") (Value.int 0) = Value.int 0 ∧
      getD (([] : Record)) ("read_hits") (Value.int 0) = Value.int 0 ∧
      getD (([] : Record)) ("read_misses") (Value.int 0) = Value.int 0 ∧
      getD (([] : Record)) ("total_writes") (Value.int 0) = Value.int 0 ∧
      getD (([] : Record)) ("write_hits") (Value.int 0) = Value.int 0 ∧
      getD (([] : Record)) ("write_misses") (Value.int 0) = Value.int 0 ∧
      getD (([] : Record)) ("coherency_invalidates") (Value.int 0) = Value.int 0 ∧
      getD (([] : Record)) ("cycles") (Value.int 0) = Value.int 0 ∧
      dictFind (([] : Record)) ("cycles_bus_busy") = (none : Option ℤ).map Value.int)) ∧
    ((∃ c, computeStage (([] : Record)) = Except.ok c ∧
      ((0 : ℤ) + 0 = 0 → c.cache_hit_rate = none ∧ c.cache_miss_rate = none) ∧
      ((0 : ℤ) = 0 → c.coherency_miss_rate = none) ∧
      ((0 : ℤ) = 0 → c.bus_utilization = none)) ∧
     fmt_rate none = ("N/A") ∧
     rateCell none = Cell.str ("") ∧
     (∃ c, computeStage (parse_kv_lines ("total_reads = 0\ntotal_writes = 0")) = Except.ok c ∧
      c.cache_hit_rate = none ∧ c.cache_miss_rate = none)) :=
⟨by decide,
 C6_zero_denominators ([]) 0 0 0 0 0 0 0 0 none
   (by decide) (by decide) (by decide) (by decide) (by decide) (by decide)
   (by decide) (by decide) (by decide)⟩

/-- C7: when the cycles_bus_busy key is absent from the input,
bus_utilization is null and the printed table omits the cycles_bus_busy row
entirely, printing exactly the header, ruler, the eight counter rows, the
ruler and the four rate rows in the fixed order. -/
theorem C7_absent_bus_busy (t : String) (c : Computed)
    (habs : dictFind (parse_kv_lines t) ("cycles_bus_busy") = none)
    (hok : computeStage (parse_kv_lines t) = Except.ok c) :
    c.bus_utilization = none ∧
    printTable c =
      [tableHeader, tableRuler,
       pad28 ("total_reads") ++ valueRepr c.total_reads,
       pad28 ("read_hits") ++ valueRepr c.read_hits,
       pad28 ("read_misses") ++ valueRepr c.read_misses,
       pad28 ("total_writes") ++ valueRepr c.total_writes,
       pad28 ("write_hits") ++ valueRepr c.write_hits,
       pad28 ("write_misses") ++ valueRepr c.write_misses,
       pad28 ("coherency_invalidates") ++ valueRepr c.coherency_invalidates,
       pad28 ("cycles") ++ valueRepr c.cycles,
       tableRuler,
       pad28 ("cache_hit_rate") ++ fmt_rate c.cache_hit_rate,
       pad28 ("cache_miss_rate") ++ fmt_rate c.cache_miss_rate,
       pad28 ("coherency_miss_rate") ++ fmt_rate c.coherency_miss_rate,
       pad28 ("bus_utilization") ++ ("N/A")] := by
  obtain ⟨hc, hb⟩ := computeStage_ok_cbb _ c habs hok
  refine ⟨hb, ?_⟩
  simp [printTable, hc, hb, fmt_rate]

/-- Witness for C7 at an input containing only a comment line. -/
theorem C7_absent_bus_busy_witness :
    (dictFind (parse_kv_lines ("# empty dump")) ("cycles_bus_busy") = none ∧
     computeStage (parse_kv_lines ("# empty dump")) = Except.ok emptyComputed) ∧
    (emptyComputed.bus_utilization = none ∧
     printTable emptyComputed =
      [tableHeader, tableRuler,
       pad28 ("total_reads") ++ valueRepr emptyComputed.total_reads,
       pad28 ("read_hits") ++ valueRepr emptyComputed.read_hits,
       pad28 ("read_misses") ++ valueRepr emptyComputed.read_misses,
       pad28 ("total_writes") ++ valueRepr emptyComputed.total_writes,
       pad28 ("write_hits") ++ valueRepr emptyComputed.write_hits,
       pad28 ("write_misses") ++ valueRepr emptyComputed.write_misses,
       pad28 ("coherency_invalidates") ++ valueRepr emptyComputed.coherency_invalidates,
       pad28 ("cycles") ++ valueRepr emptyComputed.cycles,
       tableRuler,
       pad28 ("cache_hit_rate") ++ fmt_rate emptyComputed.cache_hit_rate,
       pad28 ("cache_miss_rate") ++ fmt_rate emptyComputed.cache_miss_rate,
       pad28 ("coherency_miss_rate") ++ fmt_rate emptyComputed.coherency_miss_rate,
       pad28 ("bus_utilization") ++ ("N/A")]) :=
⟨⟨rfl, rfl⟩, C7_absent_bus_busy ("# empty dump") emptyComputed rfl rfl⟩

/-- C8: with read_hits = a, write_hits = b, total_reads = a,
total_writes = b, read_misses = 0, write_misses = 0 for nonnegative
integers a and b, the computed cache_hit_rate is exactly 1 when a + b is
positive and null when a + b = 0. -/
theorem C8_perfect_hit_rate (a b : ℤ) (ha : 0 ≤ a) (hb : 0 ≤ b) :
    ∃ c, computeStage
      [(("read_hits"), Value.int a), (("write_hits"), Value.int b),
       (("total_reads"), Value.int a), (("total_writes"), Value.int b),
       (("read_misses"), Value.int 0), (("write_misses"), Value.int 0)] = Except.ok c ∧
      c.cache_hit_rate = (if 0 < a + b then some 1 else none) := by
  refine ⟨_, computeStage_int _ a a 0 b b 0 0 0 none
    (by simp [getD, dictFind]) (by simp [getD, dictFind]) (by simp [getD, dictFind])
    (by simp [getD, dictFind]) (by simp [getD, dictFind]) (by simp [getD, dictFind])
    (by simp [getD, dictFind]) (by simp [getD, dictFind]) (by simp [dictFind]), ?_⟩
  by_cases h : a + b = 0
  · simp [h, show ¬ (0 : ℤ) < a + b by omega]
  · have hpos : (0 : ℤ) < a + b := by omega
    have hne : ((a : ℚ) + (b : ℚ)) ≠ 0 := by
      have hq : ((a + b : ℤ) : ℚ) ≠ 0 := Int.cast_ne_zero.mpr h
      push_cast at hq
      exact hq
    simp [h, hpos]
    rw [div_self]
    exact hne

/-- Witness for C8 at a = 2, b = 3. -/
theorem C8_perfect_hit_rate_witness :
    ((0 : ℤ) ≤ 2 ∧ (0 : ℤ) ≤ 3) ∧
    (∃ c, computeStage
      [(("read_hits"), Value.int 2), (("write_hits"), Value.int 3),
       (("total_reads"), Value.int 2), (("total_writes"), Value.int 3),
       (("read_misses"), Value.int 0), (("write_misses"), Value.int 0)] = Except.ok c ∧
      c.cache_hit_rate = (if (0 : ℤ) < 2 + 3 then some 1 else none)) :=
⟨by decide, C8_perfect_hit_rate 2 3 (by decide) (by decide)⟩

/-- C9: inserting a blank line or a comment line (first non-whitespace
character '#') at any line position of the input leaves the parsed record
identical. -/
theorem C9_insert_ignorable (pre post : List String) (l : String)
    (hpre : ∀ s ∈ pre, noNL s = true) (hpost : ∀ s ∈ post, noNL s = true)
    (hl : noNL l = true) (hig : ignorableLine l = true) :
    parse_kv_lines (joinLines (pre ++ l :: post)) = parse_kv_lines (joinLines (pre ++ post)) := by
  have hall1 : ∀ s ∈ pre ++ l :: post, noNL s = true := by
    intro s hs
    rcases List.mem_append.mp hs with hp | hp
    · exact hpre s hp
    · rcases List.mem_cons.mp hp with hp | hp
      · rw [hp]; exact hl
      · exact hpost s hp
  have hall2 : ∀ s ∈ pre ++ post, noNL s = true := by
    intro s hs
    rcases List.mem_append.mp hs with hp | hp
    · exact hpre s hp
    · exact hpost s hp
  unfold parse_kv_lines parseLines
  rw [parse_join _ hall1, parse_join _ hall2, List.foldl_append, List.foldl_append,
    List.foldl_cons,
    show parseStep (pre.foldl parseStep []) l = pre.foldl parseStep [] from by
      simp [parseStep, lineEntry_of_ignorable l hig]]

/-- Witness for C9: a comment line inserted between two data lines. -/
theorem C9_insert_ignorable_witness :
    ((∀ s ∈ [("a = 1")], noNL s = true) ∧ (∀ s ∈ [("b = 2")], noNL s = true) ∧
     noNL ("# note") = true ∧ ignorableLine ("# note") = true) ∧
    parse_kv_lines (joinLines ([("a = 1")] ++ ("# note") :: [("b = 2")])) =
      parse_kv_lines (joinLines ([("a = 1")] ++ [("b = 2")])) :=
⟨⟨by decide, by decide, by decide, by decide⟩,
 C9_insert_ignorable [("a = 1")] [("b = 2")] ("# note") (by decide) (by decide) (by decide) (by decide)⟩

/-- C10: two inputs whose lines with known metric keys agree (they differ
only in skipped lines or lines whose key is outside the nine known names)
produce the same computation outcome, the same printed table and the same
CSV row: unknown keys never influence any output. -/
theorem C10_unknown_keys_no_influence (t1 t2 : String)
    (hf : (pySplitlines t1).filter isRelevant = (pySplitlines t2).filter isRelevant) :
    computeStage (parse_kv_lines t1) = computeStage (parse_kv_lines t2) ∧
    (computeStage (parse_kv_lines t1)).map printTable =
      (computeStage (parse_kv_lines t2)).map printTable ∧
    (computeStage (parse_kv_lines t1)).map makeRow =
      (computeStage (parse_kv_lines t2)).map makeRow := by
  have hcs : computeStage (parse_kv_lines t1) = computeStage (parse_kv_lines t2) :=
    computeStage_congr _ _ (fun k hk => parse_known_eq t1 t2 hf k hk)
  exact ⟨hcs, by rw [hcs], by rw [hcs]⟩

/-- Witness for C10: the same known line, different unknown-key lines. -/
theorem C10_unknown_keys_no_influence_witness :
    ((pySplitlines ("total_reads = 5\nfoo = 1")).filter isRelevant =
      (pySplitlines ("total_reads = 5\nbar = zzz\n# hmm")).filter isRelevant) ∧
    (computeStage (parse_kv_lines ("total_reads = 5\nfoo = 1")) =
      computeStage (parse_kv_lines ("total_reads = 5\nbar = zzz\n# hmm")) ∧
     (computeStage (parse_kv_lines ("total_reads = 5\nfoo = 1"))).map printTable =
      (computeStage (parse_kv_lines ("total_reads = 5\nbar = zzz\n# hmm"))).map printTable ∧
     (computeStage (parse_kv_lines ("total_reads = 5\nfoo = 1"))).map makeRow =
      (computeStage (parse_kv_lines ("total_reads = 5\nbar = zzz\n# hmm"))).map makeRow) :=
⟨by decide,
 C10_unknown_keys_no_influence ("total_reads = 5\nfoo = 1") ("total_reads = 5\nbar = zzz\n# hmm")
   (by decide)⟩
